import Mathlib

/-!
Verification of the offline cache / pending-mutation queue / sync
orchestration subsystem of the Food_diary client (static/js/main.js,
objects `AppCache`, `OfflineQueue`, `API`).

Modelling conventions:
* JS strings are modelled as their character lists (`Str`).
* `localStorage` holds two independent cells (the cache snapshot under
  `food_diary_cache` and the queue under `food_diary_queue`); each cell is
  `absent` (key missing), `corrupt` (present but `JSON.parse` throws on it),
  or `stored v` (present and parsing to the shape `v`).
* `localStorage.setItem` can throw (quota exceeded); each operation that
  writes takes an explicit `setFails : Bool` saying whether the write throws
  at that moment.  `removeItem` never throws.
* A JS function that may let an exception escape is modelled in
  `Except Unit`; `.error ()` is an uncaught thrown exception.
* `Date.now()` / timestamps are integers (milliseconds); the current time is
  passed explicitly as `now`.
* Each `fetch` call's outcome is an explicit argument: rejection of the
  promise (network error), a resolved response with an `ok` flag, and where
  the code reads the body, whether `response.json()` throws and what it
  yields.
-/

namespace FoodDiary

/-- JS strings, modelled as their character lists. -/
abbrev Str := List Char

/-- Server state returned by `GET /api/sync` (`result.data`).  The subsystem
never looks inside it, so it is modelled as an opaque JSON-object-like value
(a list of key/value pairs). -/
abbrev ServerState := List (Str × Str)

/-- A diary entry as the subsystem sees it: a payload (`product`, `weight`)
plus the optional bookkeeping fields `id`, `_tempId`, `_offline` that the
code reads or writes.  An absent JS field is `none` (`false` for the
`_offline` flag, which the code only ever sets to `true`). -/
structure Entry where
  product : Str := []
  weight : Int := 0
  id : Option Str := none
  _tempId : Option Str := none
  _offline : Bool := false
deriving DecidableEq, Repr

/-- A catalog product (per-100g macros), with the same bookkeeping fields. -/
structure Product where
  name : Str := []
  calories : Int := 0
  protein : Int := 0
  fat : Int := 0
  carbs : Int := 0
  id : Option Str := none
  _tempId : Option Str := none
  _offline : Bool := false
deriving DecidableEq, Repr

/-- The cache snapshot as persisted by `AppCache.set`: the schema `version`
stamp, the `cachedAt` timestamp (absent or unparseable date modelled as
`none`) and the cached server state.  (`AppCache.set(result)` in `syncAll`
also freezes the stray `success` field of the response into the stored JSON;
no reader of the cache ever consults it, so it is not modelled.) -/
structure Snapshot where
  version : Str
  cachedAt : Option Int
  data : ServerState
deriving DecidableEq, Repr

/-- The pending-mutation queue (`food_diary_queue`), source lines 63-113. -/
structure Queue where
  new_entries : List Entry
  deleted_entries : List Str
  new_products : List Product
  deleted_products : List Str
deriving DecidableEq, Repr

/-- One `localStorage` cell: key missing, present but failing `JSON.parse`,
or present and parsing to `v`. -/
inductive Cell (α : Type) where
  | absent
  | corrupt
  | stored (v : α)
deriving DecidableEq, Repr

/-- The persisted local state: the two cells the subsystem uses. -/
structure Storage where
  cache : Cell Snapshot
  queue : Cell Queue
deriving DecidableEq, Repr

/-- `AppCache.CACHE_VERSION` (source line 9). -/
def CACHE_VERSION : Str := "1.0".toList

/-- `5 * 60 * 1000` ms (source line 50). -/
def fiveMinutes : Int := 5 * 60 * 1000

/-- The literal `'temp_'` prefixed to generated temp ids (source lines 78, 87). -/
def tempTag : Str := "temp_".toList

/-- `'temp_' + Date.now()` (source lines 78 and 97): the temp id generated at
time `now`.  `Date.now()` is non-negative, hence the `toNat`. -/
def mkTempId (now : Int) : Str := tempTag ++ Nat.toDigits 10 now.toNat

/-- `String(entryId).startsWith('temp_')` (source line 87). -/
def isTempId (s : Str) : Bool := tempTag.isPrefixOf s

namespace AppCache

/-- `AppCache.get` (source lines 12-25): read the cache cell; a missing key,
a `JSON.parse` failure (caught, line 21) or a version mismatch (line 17) all
yield `null`. -/
def get (st : Storage) : Option Snapshot :=
  match st.cache with
  | .stored s => if s.version = CACHE_VERSION then some s else none
  | _ => none

/-- `AppCache.set` (source lines 28-36): stamp `version` and `cachedAt` and
persist; a storage failure is caught (line 33), leaving the cell unchanged. -/
def set (data : ServerState) (setFails : Bool) (now : Int) (st : Storage) : Storage :=
  if setFails then st
  else { st with cache := .stored { version := CACHE_VERSION, cachedAt := some now, data := data } }

/-- `AppCache.clear` (source lines 39-41): `removeItem`. -/
def clear (st : Storage) : Storage :=
  { st with cache := .absent }

/-- `AppCache.isValid` (source lines 44-53): false when `get` yields `null`
or `cachedAt` is missing/unparseable, else `(now - cachedTime) < fiveMinutes`. -/
def isValid (now : Int) (st : Storage) : Bool :=
  match get st with
  | none => false
  | some cached =>
    match cached.cachedAt with
    | none => false
    | some cachedTime => decide (now - cachedTime < fiveMinutes)

end AppCache

namespace OfflineQueue

/-- The default empty queue shape (source lines 66 and 68). -/
def emptyQueue : Queue :=
  { new_entries := [], deleted_entries := [], new_products := [], deleted_products := [] }

/-- `OfflineQueue.get` (source lines 63-70): a missing key (line 66) or a
parse failure (caught, line 67-68) yields the empty queue shape. -/
def get (st : Storage) : Queue :=
  match st.queue with
  | .stored q => q
  | _ => emptyQueue

/-- `OfflineQueue.set` (source lines 72-74): `setItem` with NO try/catch — a
storage failure propagates to the caller as a thrown exception. -/
def set (q : Queue) (setFails : Bool) (st : Storage) : Except Unit Storage :=
  if setFails then .error () else .ok { st with queue := .stored q }

/-- `OfflineQueue.addEntry` (source lines 76-82): read the queue, stamp
`entry._tempId`, append to `new_entries`, persist, return the temp id. -/
def addEntry (entry : Entry) (now : Int) (setFails : Bool) (st : Storage) :
    Except Unit (Str × Storage) :=
  let q := get st
  let t := mkTempId now
  let e := { entry with _tempId := some t }
  let q2 := { q with new_entries := q.new_entries ++ [e] }
  (set q2 setFails st).map (fun st2 => (t, st2))

/-- `OfflineQueue.deleteEntry` (source lines 84-93): for a temp id, filter
`new_entries` by `e._tempId !== entryId`; otherwise append the id to
`deleted_entries`; then persist. -/
def deleteEntry (entryId : Str) (setFails : Bool) (st : Storage) : Except Unit Storage :=
  let q := get st
  let q2 :=
    if isTempId entryId then
      { q with new_entries := q.new_entries.filter (fun e => e._tempId != some entryId) }
    else
      { q with deleted_entries := q.deleted_entries ++ [entryId] }
  set q2 setFails st

/-- `OfflineQueue.addProduct` (source lines 95-101): symmetric to `addEntry`
on `new_products`. -/
def addProduct (product : Product) (now : Int) (setFails : Bool) (st : Storage) :
    Except Unit (Str × Storage) :=
  let q := get st
  let t := mkTempId now
  let p := { product with _tempId := some t }
  let q2 := { q with new_products := q.new_products ++ [p] }
  (set q2 setFails st).map (fun st2 => (t, st2))

/-- `OfflineQueue.clear` (source lines 103-105): `removeItem`. -/
def clear (st : Storage) : Storage :=
  { st with queue := .absent }

/-- `OfflineQueue.hasChanges` (source lines 107-113). -/
def hasChanges (st : Storage) : Bool :=
  let q := get st
  decide (q.new_entries.length > 0) || decide (q.deleted_entries.length > 0) ||
    decide (q.new_products.length > 0) || decide (q.deleted_products.length > 0)

end OfflineQueue

/-- Why a network interaction counted as a failure: the fetch promise
rejected, the response had a non-2xx status, or reading/parsing the body
threw. -/
inductive FailReason where
  | netErr
  | notOk
  | badJson
deriving DecidableEq, Repr

/-- Outcome of a create call (`POST /api/add_entry` / `POST /api/add_product`):
either a 2xx response whose parsed body carries the server-confirmed value
(`result.entry` / `result.product`), or a failure. -/
inductive CreateOutcome (α : Type) where
  | ok (v : α)
  | fail (r : FailReason)
deriving DecidableEq, Repr

/-- Outcome of `DELETE /api/delete_entry/{id}`: the promise rejects, or a
response arrives with the given `ok` flag (its body is never read). -/
inductive DeleteOutcome where
  | netErr
  | resp (ok : Bool)
deriving DecidableEq, Repr

/-- Outcome of `POST /api/sync`: the promise rejects, or a response arrives
with the given `ok` flag (its body is never read). -/
inductive PushOutcome where
  | netErr
  | resp (ok : Bool)
deriving DecidableEq, Repr

/-- Outcome of `GET /api/sync`: a failure (rejection, non-2xx, body parse
error) or a parsed body `{ success, data }`. -/
inductive PullOutcome where
  | fail (r : FailReason)
  | ok (success : Bool) (data : ServerState)
deriving DecidableEq, Repr

namespace API

/-- The `catch` block of `syncAll` (source lines 133-138): fall back to the
cached snapshot's `data` when one (with a matching version) exists, else
`null`. -/
def syncFallback (st : Storage) : Option ServerState × Storage :=
  match AppCache.get st with
  | some cached => (some cached.data, st)
  | none => (none, st)

/-- `API.syncAll` (source lines 122-139): on a 2xx response whose body has
`success: true`, store the result as a fresh snapshot (`AppCache.set`, which
swallows its own storage errors) and return its `data`; any failure — network
error, non-2xx, body parse error, or `success: false` — lands in the catch
block and falls back to the cache. -/
def syncAll (pull : PullOutcome) (cacheSetFails : Bool) (now : Int) (st : Storage) :
    Option ServerState × Storage :=
  match pull with
  | .ok true data => (some data, AppCache.set data cacheSetFails now st)
  | .ok false _ => syncFallback st
  | .fail _ => syncFallback st

/-- `API.pushChanges` (source lines 142-162): nothing queued — return `true`
at once without any network call; otherwise send the entire queue read from
storage (`push` is the gateway's response as a function of the sent body):
2xx — clear the queue and return `true`; non-2xx or rejection — return
`false`, queue untouched.  The whole body sits in try/catch, so nothing
propagates. -/
def pushChanges (push : Queue → PushOutcome) (st : Storage) : Bool × Storage :=
  if !OfflineQueue.hasChanges st then (true, st)
  else
    let q := OfflineQueue.get st
    match push q with
    | .resp true => (true, OfflineQueue.clear st)
    | .resp false => (false, st)
    | .netErr => (false, st)

/-- `API.addEntry` (source lines 165-184): on success return the
server-confirmed `result.entry` unchanged; on any failure enqueue the entry
(which stamps `_tempId` on it) and return `{ ...entry, id: tempId,
_offline: true }`.  The storage write inside the catch block can itself
throw, which propagates. -/
def addEntry (entry : Entry) (o : CreateOutcome Entry) (setFails : Bool) (now : Int)
    (st : Storage) : Except Unit (Entry × Storage) :=
  match o with
  | .ok serverEntry => .ok (serverEntry, st)
  | .fail _ =>
    (OfflineQueue.addEntry entry now setFails st).map
      (fun p => ({ entry with _tempId := some p.1, id := some p.1, _offline := true }, p.2))

/-- `API.deleteEntry` (source lines 187-197): a resolved response returns its
`ok` flag directly (no queueing); only a rejected fetch reaches the catch
block, which queues the deletion and returns `true`.  The storage write in
the catch block can throw, which propagates. -/
def deleteEntry (entryId : Str) (o : DeleteOutcome) (setFails : Bool) (st : Storage) :
    Except Unit (Bool × Storage) :=
  match o with
  | .resp ok => .ok (ok, st)
  | .netErr =>
    (OfflineQueue.deleteEntry entryId setFails st).map (fun st2 => (true, st2))

/-- `API.addProduct` (source lines 200-217): symmetric to `addEntry`. -/
def addProduct (product : Product) (o : CreateOutcome Product) (setFails : Bool) (now : Int)
    (st : Storage) : Except Unit (Product × Storage) :=
  match o with
  | .ok serverProduct => .ok (serverProduct, st)
  | .fail _ =>
    (OfflineQueue.addProduct product now setFails st).map
      (fun p => ({ product with _tempId := some p.1, id := some p.1, _offline := true }, p.2))

end API

end FoodDiary

namespace FoodDiary

/-! ## Helper lemmas (shared) -/

/-- A generated temp id (`'temp_' + Date.now()`) always matches the temp-id
pattern (`startsWith('temp_')`). -/
theorem isTempId_mkTempId (n : Int) : isTempId (mkTempId n) = true := by
  simp [isTempId, mkTempId, List.isPrefixOf_iff_prefix]

/-- `hasChanges` is false exactly when all four queue lists are empty. -/
theorem hasChanges_eq_false_iff (st : Storage) :
    OfflineQueue.hasChanges st = false ↔
      (OfflineQueue.get st).new_entries = [] ∧
      (OfflineQueue.get st).deleted_entries = [] ∧
      (OfflineQueue.get st).new_products = [] ∧
      (OfflineQueue.get st).deleted_products = [] := by
  simp only [OfflineQueue.hasChanges, Bool.or_eq_false_iff, decide_eq_false_iff_not,
    Nat.not_lt, Nat.le_zero, List.length_eq_zero]
  tauto

/-! ## C1 — total ops under every failure condition (corrected)

The claim says every public operation returns a definite value under every
failure condition, *including storage failures while persisting the queue*.
That last part is false: `OfflineQueue.set` (source lines 72-74) performs
`localStorage.setItem` with no try/catch, so a storage failure raised while
persisting the queue inside the offline-fallback path of `addEntry`,
`deleteEntry` or `addProduct` propagates out of those operations as a thrown
exception.  `syncAll` and `pushChanges` do catch everything (and their models
are total functions by construction). -/

/-- C1 counterexample: with the gateway failing and the queue-persistence
write throwing (quota exceeded), `API.addEntry`, `API.deleteEntry` and
`API.addProduct` each propagate the storage exception instead of returning a
value. -/
theorem offline_ops_throw_on_queue_write_failure :
    API.addEntry { product := "apple".toList, weight := 150 } (.fail .netErr) true 0
      ⟨Cell.absent, Cell.absent⟩ = .error () ∧
    API.deleteEntry ("e1".toList) .netErr true ⟨Cell.absent, Cell.absent⟩ = .error () ∧
    API.addProduct { name := "rice".toList } (.fail .netErr) true 0
      ⟨Cell.absent, Cell.absent⟩ = .error () :=
  ⟨rfl, rfl, rfl⟩

/-- C1 (amended): whenever the storage write that persists the queue
succeeds, every public operation returns a definite value under every
gateway-failure condition: `addEntry`, `deleteEntry` and `addProduct` return
`.ok` for every outcome, and `pushChanges` / `syncAll` (whose bodies sit
entirely in try/catch) always return a value. -/
theorem publicOps_return_values_when_queue_write_succeeds
    (e : Entry) (p : Product) (i : Str) (oe : CreateOutcome Entry)
    (op : CreateOutcome Product) (od : DeleteOutcome) (push : Queue → PushOutcome)
    (pull : PullOutcome) (cf : Bool) (n m now : Int) (st : Storage) :
    (∃ v, API.addEntry e oe false n st = .ok v) ∧
    (∃ v, API.deleteEntry i od false st = .ok v) ∧
    (∃ v, API.addProduct p op false m st = .ok v) ∧
    (∃ v, API.pushChanges push st = v) ∧
    (∃ v, API.syncAll pull cf now st = v) := by
  refine ⟨?_, ?_, ?_, ⟨_, rfl⟩, ⟨_, rfl⟩⟩
  · cases oe <;> simp [API.addEntry, OfflineQueue.addEntry, OfflineQueue.set, Except.map]
  · cases od <;> simp [API.deleteEntry, OfflineQueue.deleteEntry, OfflineQueue.set, Except.map]
  · cases op <;> simp [API.addProduct, OfflineQueue.addProduct, OfflineQueue.set, Except.map]

/-! ## C2 — deleteEntry failure handling (corrected)

The claim says every remote-delete failure (network error, non-2xx response,
malformed body) is treated uniformly: queue the deletion and return true.
In the code (source lines 187-197) only a *rejected* fetch reaches the catch
block; a resolved non-2xx response returns `response.ok` (i.e. `false`) with
no queueing, and the response body is never read, so a malformed body cannot
even occur as a failure cause here. -/

/-- C2 counterexample: on a resolved non-2xx response, `deleteEntry` returns
`false` with the queue untouched, and does not return `true` with any
storage state — contradicting "records the deletion in the pending queue and
returns true; deleteEntry never reports failure". -/
theorem deleteEntry_non2xx_returns_false_without_queueing :
    API.deleteEntry ("e1".toList) (.resp false) false ⟨Cell.absent, Cell.absent⟩ =
      .ok (false, ⟨Cell.absent, Cell.absent⟩) ∧
    (∀ st2 : Storage, API.deleteEntry ("e1".toList) (.resp false) false
      ⟨Cell.absent, Cell.absent⟩ ≠ .ok (true, st2)) := by
  refine ⟨rfl, fun st2 h => ?_⟩
  simp [API.deleteEntry] at h

/-- C2 (amended): only when the fetch itself rejects (network unavailability)
does `deleteEntry` record the deletion in the pending queue — removing the
matching items from `new_entries` for a temp-prefixed id, otherwise
appending the id to `deleted_entries` — and return `true`; a resolved
response returns its `ok` flag unchanged (so a non-2xx response reports
`false`) and leaves the queue exactly as it was. -/
theorem deleteEntry_failure_branches (entryId : Str) (b : Bool) (st : Storage) :
    (isTempId entryId = true →
      API.deleteEntry entryId .netErr false st =
        .ok (true, { st with queue := Cell.stored ({ OfflineQueue.get st with
          new_entries := (OfflineQueue.get st).new_entries.filter
            (fun e => e._tempId != some entryId) }) })) ∧
    (isTempId entryId = false →
      API.deleteEntry entryId .netErr false st =
        .ok (true, { st with queue := Cell.stored ({ OfflineQueue.get st with
          deleted_entries := (OfflineQueue.get st).deleted_entries ++ [entryId] }) })) ∧
    API.deleteEntry entryId (.resp b) false st = .ok (b, st) := by
  refine ⟨fun h => ?_, fun h => ?_, rfl⟩ <;>
    simp [API.deleteEntry, OfflineQueue.deleteEntry, OfflineQueue.set, Except.map, h]

/-! ## C3 — pushChanges atomicity (confirmed) -/

/-- C3: for every non-empty pending queue, `pushChanges` sends the entire
queue (the gateway outcome is a function of the full queue read from
storage) in one push; on a 2xx response it clears the persisted queue
(afterwards all four lists are empty and `hasChanges` is false) and returns
success; on a non-2xx response or a rejected fetch it returns failure with
the persisted state left exactly as it was — no partial clears. -/
theorem pushChanges_atomic (push : Queue → PushOutcome) (st : Storage)
    (h : OfflineQueue.hasChanges st = true) :
    (push (OfflineQueue.get st) = .resp true →
      API.pushChanges push st = (true, { st with queue := Cell.absent }) ∧
      OfflineQueue.get { st with queue := Cell.absent } = OfflineQueue.emptyQueue ∧
      OfflineQueue.hasChanges { st with queue := Cell.absent } = false) ∧
    (push (OfflineQueue.get st) = .resp false → API.pushChanges push st = (false, st)) ∧
    (push (OfflineQueue.get st) = .netErr → API.pushChanges push st = (false, st)) := by
  refine ⟨fun hp => ⟨?_, rfl, rfl⟩, fun hp => ?_, fun hp => ?_⟩ <;>
    simp [API.pushChanges, OfflineQueue.clear, h, hp]

/-- Concrete storage with one pending deletion, used as a witness input. -/
def stOneDeletion : Storage :=
  ⟨Cell.absent, Cell.stored ({ OfflineQueue.emptyQueue with deleted_entries := ["x".toList] })⟩

/-- A gateway that accepts every push. -/
def pushOk : Queue → PushOutcome := fun _ => .resp true

/-- C3 witness: `pushChanges_atomic` instantiated with a queue holding one
pending deletion and a gateway that accepts the push. -/
theorem pushChanges_atomic_witness :
    OfflineQueue.hasChanges stOneDeletion = true ∧
    ((pushOk (OfflineQueue.get stOneDeletion) = .resp true →
      API.pushChanges pushOk stOneDeletion = (true, { stOneDeletion with queue := Cell.absent }) ∧
      OfflineQueue.get { stOneDeletion with queue := Cell.absent } = OfflineQueue.emptyQueue ∧
      OfflineQueue.hasChanges { stOneDeletion with queue := Cell.absent } = false) ∧
     (pushOk (OfflineQueue.get stOneDeletion) = .resp false →
      API.pushChanges pushOk stOneDeletion = (false, stOneDeletion)) ∧
     (pushOk (OfflineQueue.get stOneDeletion) = .netErr →
      API.pushChanges pushOk stOneDeletion = (false, stOneDeletion))) :=
  ⟨rfl, pushChanges_atomic pushOk stOneDeletion rfl⟩

/-! ## C4 — addEntry offline result vs queued item (corrected)

The claim says the returned provisional object (input merged with
`id := tempId, _offline := true`) is exactly what `new_entries` then
contains.  In the code the queue is persisted *before* the spread
`{ ...entry, id: tempId, _offline: true }` is built (source lines 181-182
after lines 76-82), so the queued item carries only `_tempId` — not the `id`
and `_offline` markers of the returned copy. -/

/-- C4 counterexample: under gateway failure from an empty queue, the
returned provisional object has the temp `id` and `_offline: true`, but
`new_entries` does not contain that object (the queued item lacks `id` and
`_offline`). -/
theorem addEntry_offline_queue_item_differs :
    ∃ ret st2,
      API.addEntry { product := "apple".toList, weight := 150 } (.fail .netErr) false 7
        ⟨Cell.absent, Cell.absent⟩ = .ok (ret, st2) ∧
      ret.id = some (mkTempId 7) ∧ ret._offline = true ∧
      (OfflineQueue.get st2).new_entries ≠ [ret] := by
  refine ⟨_, _, rfl, rfl, rfl, ?_⟩
  decide

/-- C4 (amended): for every input entry, when the gateway create fails,
`addEntry` returns a copy of the input merged with `_tempId` and an `id` of
the temp-id format and `_offline` set to `true`, and afterwards
`new_entries` is the previous list plus exactly one item: the input entry
stamped with the same temp id (without the `id` and `_offline` markers of
the returned copy); starting from an empty queue it is exactly that one
item. -/
theorem addEntry_offline_provisional (e : Entry) (r : FailReason) (n : Int) (st : Storage) :
    API.addEntry e (.fail r) false n st =
      .ok ({ e with _tempId := some (mkTempId n), id := some (mkTempId n), _offline := true },
        { st with queue := Cell.stored ({ OfflineQueue.get st with
          new_entries := (OfflineQueue.get st).new_entries ++
            [{ e with _tempId := some (mkTempId n) }] }) }) ∧
    isTempId (mkTempId n) = true ∧
    ((OfflineQueue.get st).new_entries = [] →
      (OfflineQueue.get { st with queue := Cell.stored ({ OfflineQueue.get st with
        new_entries := (OfflineQueue.get st).new_entries ++
          [{ e with _tempId := some (mkTempId n) }] }) }).new_entries =
        [{ e with _tempId := some (mkTempId n) }]) := by
  refine ⟨?_, isTempId_mkTempId n, fun hempty => ?_⟩
  · simp [API.addEntry, OfflineQueue.addEntry, OfflineQueue.set, Except.map]
  · have hg : OfflineQueue.get
        { st with queue := Cell.stored ({ OfflineQueue.get st with
          new_entries := (OfflineQueue.get st).new_entries ++
            [{ e with _tempId := some (mkTempId n) }] }) } =
        { OfflineQueue.get st with
          new_entries := (OfflineQueue.get st).new_entries ++
            [{ e with _tempId := some (mkTempId n) }] } := rfl
    rw [hg]
    simp [hempty]

/-! ## C5 — snapshot validity (confirmed) -/

/-- C5: `AppCache.isValid` returns true exactly when the cache cell holds a
snapshot whose `version` equals the current schema version, whose `cachedAt`
is present, and whose age `now - cachedAt` is strictly below five minutes;
in particular an age of exactly five minutes, a missing snapshot, a
malformed (unparseable) snapshot, or a missing `cachedAt` all yield false. -/
theorem isSnapshotValid_iff (now : Int) (st : Storage) :
    AppCache.isValid now st = true ↔
      ∃ s, st.cache = Cell.stored s ∧ s.version = CACHE_VERSION ∧
        ∃ t, s.cachedAt = some t ∧ now - t < fiveMinutes := by
  unfold AppCache.isValid AppCache.get
  cases h : st.cache with
  | absent => simp
  | corrupt => simp
  | stored s =>
    by_cases hv : s.version = CACHE_VERSION
    · cases ht : s.cachedAt with
      | none => simp [hv, ht]
      | some t => simp [hv, ht]
    · simp [hv]

/-! ## C6 — syncAll fallback and store (confirmed) -/

/-- C6: on every gateway-pull failure (rejection, non-2xx, malformed body,
or a body with `success: false`), `syncAll` returns the cached snapshot's
`data` whenever the cache cell holds a snapshot with a matching schema
version — with no freshness constraint, as the included 6-minute-stale
scenario (for which `isValid` is false) shows — and `none` when no such
snapshot exists, leaving storage unchanged; on success it stores the pulled
data as a fresh snapshot stamped with the current time and returns it. -/
theorem syncAll_fallback_and_store (r : FailReason) (d d' stale : ServerState)
    (cf : Bool) (now : Int) (cq : Cell Queue) (st : Storage) :
    API.syncAll (.fail r) cf now st =
      ((match st.cache with
        | Cell.stored s => if s.version = CACHE_VERSION then some s.data else none
        | _ => none), st) ∧
    API.syncAll (.ok false d') cf now st =
      ((match st.cache with
        | Cell.stored s => if s.version = CACHE_VERSION then some s.data else none
        | _ => none), st) ∧
    (AppCache.isValid now
        ⟨Cell.stored ⟨CACHE_VERSION, some (now - 6 * 60 * 1000), stale⟩, cq⟩ = false ∧
      API.syncAll (.fail r) cf now
          ⟨Cell.stored ⟨CACHE_VERSION, some (now - 6 * 60 * 1000), stale⟩, cq⟩ =
        (some stale, ⟨Cell.stored ⟨CACHE_VERSION, some (now - 6 * 60 * 1000), stale⟩, cq⟩)) ∧
    API.syncAll (.ok true d) false now st =
      (some d, { st with cache := Cell.stored ⟨CACHE_VERSION, some now, d⟩ }) := by
  refine ⟨?_, ?_, ⟨?_, ?_⟩, ?_⟩
  · rcases st with ⟨sc, sq⟩
    cases sc with
    | absent => simp [API.syncAll, API.syncFallback, AppCache.get]
    | corrupt => simp [API.syncAll, API.syncFallback, AppCache.get]
    | stored s =>
      by_cases hv : s.version = CACHE_VERSION <;>
        simp [API.syncAll, API.syncFallback, AppCache.get, hv]
  · rcases st with ⟨sc, sq⟩
    cases sc with
    | absent => simp [API.syncAll, API.syncFallback, AppCache.get]
    | corrupt => simp [API.syncAll, API.syncFallback, AppCache.get]
    | stored s =>
      by_cases hv : s.version = CACHE_VERSION <;>
        simp [API.syncAll, API.syncFallback, AppCache.get, hv]
  · simp [AppCache.isValid, AppCache.get, fiveMinutes]
  · simp [API.syncAll, API.syncFallback, AppCache.get]
  · simp [API.syncAll, AppCache.set]

/-! ## C7 — enqueue then dequeue round trip (confirmed) -/

/-- C7: starting from a queue with no pending changes, enqueueing any entry
and then dequeueing with the temp id the enqueue returned leaves
`new_entries` empty and `hasChanges` false. -/
theorem enqueue_dequeue_roundtrip (e : Entry) (n : Int) (st : Storage)
    (h : OfflineQueue.hasChanges st = false) :
    ∃ t st1 st2,
      OfflineQueue.addEntry e n false st = .ok (t, st1) ∧
      OfflineQueue.deleteEntry t false st1 = .ok st2 ∧
      (OfflineQueue.get st2).new_entries = [] ∧
      OfflineQueue.hasChanges st2 = false := by
  obtain ⟨h1, h2, h3, h4⟩ := (hasChanges_eq_false_iff st).mp h
  refine ⟨mkTempId n,
    { st with queue := .stored { OfflineQueue.get st with
        new_entries := [{ e with _tempId := some (mkTempId n) }] } },
    { st with queue := .stored { OfflineQueue.get st with new_entries := [] } },
    ?_, ?_, ?_, ?_⟩
  · simp [OfflineQueue.addEntry, OfflineQueue.set, Except.map, h1]
  · simp [OfflineQueue.deleteEntry, OfflineQueue.set, OfflineQueue.get,
      isTempId_mkTempId, List.filter]
  · simp [OfflineQueue.get]
  · simp only [OfflineQueue.hasChanges]
    have hg : OfflineQueue.get
        { st with queue := Cell.stored ({ OfflineQueue.get st with new_entries := ([] : List Entry) }) } =
        { OfflineQueue.get st with new_entries := [] } := rfl
    rw [hg]
    simp [h2, h3, h4]

/-- C7 witness: the round trip at a concrete entry and time, from empty
storage. -/
theorem enqueue_dequeue_roundtrip_witness :
    OfflineQueue.hasChanges ⟨Cell.absent, Cell.absent⟩ = false ∧
    (∃ t st1 st2,
      OfflineQueue.addEntry { product := "apple".toList, weight := 150 } 7 false
        ⟨Cell.absent, Cell.absent⟩ = .ok (t, st1) ∧
      OfflineQueue.deleteEntry t false st1 = .ok st2 ∧
      (OfflineQueue.get st2).new_entries = [] ∧
      OfflineQueue.hasChanges st2 = false) :=
  ⟨rfl, enqueue_dequeue_roundtrip { product := "apple".toList, weight := 150 } 7
    ⟨Cell.absent, Cell.absent⟩ rfl⟩

/-! ## C8 — getQueue defaults (confirmed) -/

/-- C8: when the persisted queue value is missing or fails to deserialize,
`OfflineQueue.get` returns the structurally valid empty queue, all four of
whose lists are empty; it is a total function, so it never raises. -/
theorem getQueue_missing_or_corrupt (st : Storage)
    (h : st.queue = Cell.absent ∨ st.queue = Cell.corrupt) :
    OfflineQueue.get st = OfflineQueue.emptyQueue ∧
    (OfflineQueue.get st).new_entries = [] ∧
    (OfflineQueue.get st).deleted_entries = [] ∧
    (OfflineQueue.get st).new_products = [] ∧
    (OfflineQueue.get st).deleted_products = [] := by
  rcases h with h | h <;>
    simp [OfflineQueue.get, OfflineQueue.emptyQueue, h]

/-- C8 witness: `getQueue_missing_or_corrupt` at a corrupt queue cell. -/
theorem getQueue_missing_or_corrupt_witness :
    ((⟨Cell.absent, Cell.corrupt⟩ : Storage).queue = Cell.absent ∨
      (⟨Cell.absent, Cell.corrupt⟩ : Storage).queue = Cell.corrupt) ∧
    (OfflineQueue.get ⟨Cell.absent, Cell.corrupt⟩ = OfflineQueue.emptyQueue ∧
      (OfflineQueue.get ⟨Cell.absent, Cell.corrupt⟩).new_entries = [] ∧
      (OfflineQueue.get ⟨Cell.absent, Cell.corrupt⟩).deleted_entries = [] ∧
      (OfflineQueue.get ⟨Cell.absent, Cell.corrupt⟩).new_products = [] ∧
      (OfflineQueue.get ⟨Cell.absent, Cell.corrupt⟩).deleted_products = []) :=
  ⟨Or.inr rfl, getQueue_missing_or_corrupt ⟨Cell.absent, Cell.corrupt⟩ (Or.inr rfl)⟩

/-! ## C9 — dequeue of a non-temp id (confirmed) -/

/-- C9: for every id that does not match the temp-id pattern and every
queue state, `deleteEntry` appends the id to `deleted_entries` and leaves
`new_entries` (and everything else) unchanged. -/
theorem dequeueEntry_nonTemp_appends (entryId : Str) (st : Storage)
    (h : isTempId entryId = false) :
    OfflineQueue.deleteEntry entryId false st =
      .ok { st with queue := Cell.stored ({ OfflineQueue.get st with
        deleted_entries := (OfflineQueue.get st).deleted_entries ++ [entryId] }) } ∧
    (OfflineQueue.get { st with queue := Cell.stored ({ OfflineQueue.get st with
        deleted_entries := (OfflineQueue.get st).deleted_entries ++ [entryId] }) }).new_entries =
      (OfflineQueue.get st).new_entries := by
  constructor
  · simp [OfflineQueue.deleteEntry, OfflineQueue.set, h]
  · rfl

/-- C9 witness: `dequeueEntry_nonTemp_appends` at the non-temp id `"e1"`
from empty storage. -/
theorem dequeueEntry_nonTemp_appends_witness :
    isTempId ("e1".toList) = false ∧
    (OfflineQueue.deleteEntry ("e1".toList) false ⟨Cell.absent, Cell.absent⟩ =
      .ok { (⟨Cell.absent, Cell.absent⟩ : Storage) with queue := Cell.stored ({
        OfflineQueue.get ⟨Cell.absent, Cell.absent⟩ with
          deleted_entries := (OfflineQueue.get ⟨Cell.absent, Cell.absent⟩).deleted_entries ++
            ["e1".toList] }) } ∧
    (OfflineQueue.get { (⟨Cell.absent, Cell.absent⟩ : Storage) with queue := Cell.stored ({
        OfflineQueue.get ⟨Cell.absent, Cell.absent⟩ with
          deleted_entries := (OfflineQueue.get ⟨Cell.absent, Cell.absent⟩).deleted_entries ++
            ["e1".toList] }) }).new_entries =
      (OfflineQueue.get ⟨Cell.absent, Cell.absent⟩).new_entries) :=
  ⟨rfl, dequeueEntry_nonTemp_appends ("e1".toList) ⟨Cell.absent, Cell.absent⟩ rfl⟩

/-! ## C10 — dequeue removes every matching temp entry (confirmed) -/

/-- C10: two entries enqueued at the same millisecond timestamp receive one
and the same temp id, and a single `deleteEntry` call with that id filters
`new_entries` down to the original entries whose `_tempId` differs from it —
so it removes both freshly enqueued entries (and every other match), not
just one. -/
theorem dequeueEntry_removes_all_matching (e1 e2 : Entry) (n : Int) (st : Storage) :
    ∃ st1 st2 st3,
      OfflineQueue.addEntry e1 n false st = .ok (mkTempId n, st1) ∧
      OfflineQueue.addEntry e2 n false st1 = .ok (mkTempId n, st2) ∧
      OfflineQueue.deleteEntry (mkTempId n) false st2 = .ok st3 ∧
      (OfflineQueue.get st3).new_entries =
        (OfflineQueue.get st).new_entries.filter (fun e => e._tempId != some (mkTempId n)) := by
  refine ⟨{ st with queue := Cell.stored ({ OfflineQueue.get st with
      new_entries := (OfflineQueue.get st).new_entries ++ [{ e1 with _tempId := some (mkTempId n) }] }) },
    { st with queue := Cell.stored ({ OfflineQueue.get st with
      new_entries := ((OfflineQueue.get st).new_entries ++ [{ e1 with _tempId := some (mkTempId n) }]) ++
        [{ e2 with _tempId := some (mkTempId n) }] }) },
    { st with queue := Cell.stored ({ OfflineQueue.get st with
      new_entries := (OfflineQueue.get st).new_entries.filter
        (fun e => e._tempId != some (mkTempId n)) }) },
    ?_, ?_, ?_, ?_⟩
  · simp [OfflineQueue.addEntry, OfflineQueue.set, Except.map]
  · simp [OfflineQueue.addEntry, OfflineQueue.set, Except.map, OfflineQueue.get]
  · simp [OfflineQueue.deleteEntry, OfflineQueue.set, OfflineQueue.get, isTempId_mkTempId,
      List.filter_append]
  · rfl

end FoodDiary
